import Mathlib

/-!
Shallow embedding of the travel-itinerary backend (`src/app.py`).

The program is a Flask app with two handlers:

* `generate_itinerary` (POST /generate_itinerary): builds a trip-details
  record from the request body (with defaults and `int()` coercions),
  builds an initial document skeleton, asks the LLM for daily activities
  (`populate_daily_activities`), asks it for a cost rollup
  (`calculate_total_cost`), optionally asks an image provider for an
  illustration, and returns the assembled document; any exception is
  caught and turned into a 500 error payload.

* `update_itinerary` (POST /update_itinerary): asks the LLM to rewrite the
  itinerary from a user suggestion; on a missing structured payload it
  returns a 400 error; otherwise it replaces the `itinerary` field, runs a
  best-effort title call, recomputes costs from the new itinerary, and
  returns the mutated document; any exception is caught and turned into a
  500 error payload.

The LLM completion capability and the image-generation capability are
external collaborators: we model them as records of functions from the
data the source embeds in each prompt to the provider's response.  A
completion response exposes an optional function-call payload whose
arguments string either parses as JSON containing the required key
(`FnArgs.ok`), parses but lacks the key (`FnArgs.missingKey`, Python
`KeyError`), or fails to parse (`FnArgs.badJson`, `json.loads` raising
`JSONDecodeError`).  Python exceptions are modelled with `Except PyErr`.
-/

/-- Python exception values that can arise in the two handlers. -/
inductive PyErr where
  /-- `json.loads` raised `JSONDecodeError` on a function-call arguments string. -/
  | jsonDecodeError
  /-- a required key was absent from parsed function-call arguments. -/
  | keyError
  /-- `int()` raised `ValueError` on a non-numeric request field. -/
  | valueError
  /-- the image-generation provider call raised. -/
  | providerError
deriving DecidableEq, Repr

/-- Models Python `str(e)` on the exceptions above (the exact message text
is incidental; a representative string stands for each exception class). -/
def strErr : PyErr → String
  | .jsonDecodeError => "Expecting value: line 1 column 1 (char 0)"
  | .keyError => "KeyError"
  | .valueError => "invalid literal for int() with base 10"
  | .providerError => "image generation failed"

/-- The decoded arguments of a forced function call: the arguments string
parses and holds the required key (`ok`), parses but lacks the key
(`missingKey`), or is not valid JSON (`badJson`). -/
inductive FnArgs (α : Type) where
  | ok (a : α)
  | badJson
  | missingKey
deriving DecidableEq, Repr

/-- A completion response's `additional_kwargs.get("function_call")`:
either absent (`none`) or a payload whose arguments decode as `FnArgs`. -/
abbrev LLMResp (α : Type) := Option (FnArgs α)

/-- `json.loads(arguments)` followed by `function_args[key]`: a parse
failure or a missing key raises, an `ok` payload yields the value. -/
def parseArgs {α : Type} : FnArgs α → Except PyErr α
  | .ok a => .ok a
  | .badJson => .error .jsonDecodeError
  | .missingKey => .error .keyError

/-- One JSON value sent with a request body field: Python `int()` treats an
int and a numeric string differently from other strings. -/
inductive PyVal where
  | vInt (n : Int)
  | vStr (s : String)
deriving DecidableEq, Repr

/-- Accumulating decimal-digit parse: `none` as soon as a non-digit
character appears, the accumulated value at the end. -/
def digitsToNat (cs : List Char) (acc : Nat) : Option Nat :=
  match cs with
  | [] => some acc
  | c :: rest => if c.isDigit then digitsToNat rest (acc * 10 + (c.toNat - 48)) else none

/-- Decimal integer parse modelling Python `int()` on a string: an
optional sign followed by at least one ASCII digit (whitespace stripping
and digit-group underscores are not modelled). -/
def strToInt (s : String) : Option Int :=
  match s.data with
  | [] => none
  | '-' :: rest => if rest = [] then none else (digitsToNat rest 0).map (fun n => -(n : Int))
  | '+' :: rest => if rest = [] then none else (digitsToNat rest 0).map (fun n => (n : Int))
  | cs => (digitsToNat cs 0).map (fun n => (n : Int))

/-- Python `int(x)` on the values above: identity on ints, decimal parse on
strings, raising `ValueError` on a non-numeric string. -/
def pyInt : PyVal → Except PyErr Int
  | .vInt n => .ok n
  | .vStr s =>
    match strToInt s with
    | some n => .ok n
    | none => .error .valueError

/-- The `details` sub-object of a day entry in the structured itinerary
schema (`create_daily_itinerary` / `update_daily_itinerary`). -/
structure DayDetails where
  morning : String
  afternoon : String
  evening : String
  meals : String
  estimated_costs : String
deriving DecidableEq, Repr

/-- One element of the `itinerary` array in the structured schema. -/
structure DayPlan where
  day : String
  details : DayDetails
deriving DecidableEq, Repr

/-- The `itinerary_costs` JSON object returned by the
`total_costs_calculator` schema; the handlers never inspect its fields, so
a key-value list models the JSON object (empty list = empty mapping). -/
abbrev CostMap := List (String × String)

/-- The `details` dict built by `create_initial_itinerary_structure`
(note: it carries no origin, destinations or days — only these seven). -/
structure TripSummary where
  budget : String
  currency : String
  groupSize : Int
  comfortLevel : String
  stayPref : String
  theme : String
  additionalInfo : String
deriving DecidableEq, Repr

/-- An itinerary document dict: each optional field models presence or
absence of the corresponding key (`jsonify` serialises only present keys;
`.get` with a default reads absent keys). -/
structure ItineraryDoc where
  title : Option String
  details : Option TripSummary
  itinerary : Option (List DayPlan)
  itinerary_costs : Option CostMap
  image : Option String
deriving DecidableEq, Repr

/-- `data.get("current_itinerary", {})`: the empty dict as a document. -/
def emptyDoc : ItineraryDoc := ⟨none, none, none, none, none⟩

/-- The `trip_details["details"]` dict assembled by the generate handler
after defaulting and `int()` coercion. -/
structure TripDetails where
  origin : String
  destinations : String
  budget : String
  days : Int
  currency : String
  groupSize : Int
  comfortLevel : String
  theme : String
  additionalInfo : String
  stayPref : String
deriving DecidableEq, Repr

/-- A JSON body POSTed to /generate_itinerary: every field optional
(`data.get` with a default); `days` and `groupSize` may arrive as ints or
strings since the handler passes them through `int()`. -/
structure RequestBody where
  origin : Option String
  destinations : Option (List String)
  budget : Option String
  days : Option PyVal
  currency : Option String
  groupSize : Option PyVal
  comfortLevel : Option String
  theme : Option String
  additionalInfo : Option String
  stayPref : Option String
deriving DecidableEq, Repr

/-- A JSON body POSTed to /update_itinerary. -/
structure UpdateBody where
  current_itinerary : Option ItineraryDoc
  user_suggestion : Option String
deriving DecidableEq, Repr

/-- A handler outcome: `jsonify(doc)` with status 200, or
`jsonify({"error": msg}), status`. -/
inductive Resp where
  | success (doc : ItineraryDoc)
  | error (msg : String) (status : Nat)
deriving DecidableEq, Repr

/-- The external capabilities the generate handler consumes: the forced
function-call completion for the itinerary prompt (a function of the trip
details the prompt embeds), the one for the cost prompt (a function of the
itinerary the prompt embeds), and the image-generation call (a function of
the first destination embedded in its prompt; `Except` models a provider
exception). -/
structure GenCapability where
  itin : TripDetails → LLMResp (List DayPlan)
  cost : List DayPlan → LLMResp CostMap
  image : String → Except PyErr String

/-- The external capabilities the update handler consumes: the update
completion (a function of the current document and the suggestion its
prompt embeds), the title completion (a function of the suggestion and the
current title), and the cost completion. -/
structure UpdCapability where
  upd : ItineraryDoc → String → LLMResp (List DayPlan)
  title : String → String → LLMResp String
  cost : List DayPlan → LLMResp CostMap

/-- `create_initial_itinerary_structure` (src/app.py:25-38): document
skeleton with a theme-dependent title and the seven-field details dict. -/
def create_initial_itinerary_structure (origin : String) (days : Int)
    (destinations : String) (budget : String) (stayPref : String)
    (currency : String) (groupSize : Int) (comfortLevel : String)
    (theme : String) (additionalInfo : String) : ItineraryDoc :=
  { title := some (if theme = "general"
      then s!"{days}-Day Trip from {origin} to {destinations}"
      else s!"{days}-Day {theme} Trip from {origin} to {destinations}")
    details := some ⟨budget, currency, groupSize, comfortLevel, stayPref,
      theme, additionalInfo⟩
    itinerary := none
    itinerary_costs := none
    image := none }

/-- `populate_daily_activities` (src/app.py:40-117): invoke the completion
capability with the itinerary prompt; if a function-call payload is
present, `json.loads` it and take its `itinerary` key (raising on parse
failure or a missing key); otherwise return the empty list. -/
def populate_daily_activities (itinCall : TripDetails → LLMResp (List DayPlan))
    (trip_details : TripDetails) : Except PyErr (List DayPlan) :=
  match itinCall trip_details with
  | some args => parseArgs args
  | none => .ok []

/-- `calculate_total_cost` (src/app.py:119-159): invoke the completion
capability with the cost prompt for the given itinerary; if a
function-call payload is present, `json.loads` it and take its
`itinerary_costs` key (raising on parse failure or a missing key);
otherwise return the empty dict. -/
def calculate_total_cost (costCall : List DayPlan → LLMResp CostMap)
    (itinerary : List DayPlan) : Except PyErr CostMap :=
  match costCall itinerary with
  | some args => parseArgs args
  | none => .ok []

/-- `data.get("destinations", [])[0] if data.get("destinations") else None`
(src/app.py:167): the head of a present non-empty destinations list. -/
def first_destination (data : RequestBody) : Option String :=
  match data.destinations with
  | some (d :: _) => some d
  | _ => none

/-- `";".join(data.get("destinations", [])) if len(...)>0 else ""`
(src/app.py:169). -/
def joined_destinations (data : RequestBody) : String :=
  let ds := data.destinations.getD []
  if ds.length > 0 then String.intercalate ";" ds else ""

/-- The `trip_details` assembly (src/app.py:171-184): defaults for absent
fields, `int()` coercion on `days` and `groupSize` (which can raise). -/
def build_trip_details (data : RequestBody) : Except PyErr TripDetails :=
  match pyInt (data.days.getD (.vInt 5)) with
  | .error e => .error e
  | .ok days =>
    match pyInt (data.groupSize.getD (.vInt 2)) with
    | .error e => .error e
    | .ok groupSize =>
      .ok { origin := data.origin.getD ""
            destinations := joined_destinations data
            budget := data.budget.getD ""
            days := days
            currency := data.currency.getD "USD"
            groupSize := groupSize
            comfortLevel := data.comfortLevel.getD "moderate"
            theme := data.theme.getD "general"
            additionalInfo := data.additionalInfo.getD ""
            stayPref := data.stayPref.getD "Doesn\x27t matter, base on my budget and comfort level" }

/-- The illustration step of the generate handler (src/app.py:204-215):
when a truthy first destination exists, call the image provider with it
and store the returned URL under the `image` key; a provider exception
propagates to the handler boundary. -/
def fetch_image (imgCall : String → Except PyErr String) (fd : Option String)
    (doc : ItineraryDoc) : Except PyErr ItineraryDoc :=
  match fd with
  | some d =>
    if d = "" then .ok doc
    else
      match imgCall d with
      | .error e => .error e
      | .ok url => .ok { doc with image := some url }
  | none => .ok doc

/-- The body of the `try` block in `generate_itinerary`
(src/app.py:164-218), with exception propagation made explicit: build the
trip details, build the skeleton, populate daily activities, compute the
cost rollup, and, when a (truthy) first destination exists, fetch an
illustration URL. -/
def generate_body (cap : GenCapability) (data : RequestBody) :
    Except PyErr ItineraryDoc :=
  match build_trip_details data with
  | .error e => .error e
  | .ok td =>
    let skeleton := create_initial_itinerary_structure td.origin td.days
      td.destinations td.budget td.stayPref td.currency td.groupSize
      td.comfortLevel td.theme td.additionalInfo
    match populate_daily_activities cap.itin td with
    | .error e => .error e
    | .ok dailyActs =>
      match calculate_total_cost cap.cost dailyActs with
      | .error e => .error e
      | .ok costs =>
        let doc := { skeleton with
          itinerary := some dailyActs
          itinerary_costs := some costs }
        fetch_image cap.image (first_destination data) doc

/-- The `generate_itinerary` handler (src/app.py:161-222): the try body's
result on success, `jsonify({"error": str(e)}), 500` on any exception. -/
def generate_itinerary (cap : GenCapability) (data : RequestBody) : Resp :=
  match generate_body cap data with
  | .ok doc => .success doc
  | .error e => .error (strErr e) 500

/-- The body of the `try` block in `update_itinerary`
(src/app.py:227-329): read the current document and suggestion with
defaults; invoke the update completion; on a missing payload return the
400 error; otherwise replace `itinerary`, run the best-effort title call,
recompute costs from the new itinerary, and return the mutated document. -/
def update_body (cap : UpdCapability) (data : UpdateBody) : Except PyErr Resp :=
  let current_itinerary := data.current_itinerary.getD emptyDoc
  let user_suggestion := data.user_suggestion.getD ""
  match cap.upd current_itinerary user_suggestion with
  | some args =>
    match parseArgs args with
    | .error e => .error e
    | .ok newItin =>
      let current1 := { current_itinerary with itinerary := some newItin }
      let afterTitle :=
        match cap.title user_suggestion (current1.title.getD "") with
        | some targs =>
          match parseArgs targs with
          | .error e => Except.error e
          | .ok t => Except.ok { current1 with title := some t }
        | none => Except.ok current1
      match afterTitle with
      | .error e => .error e
      | .ok current2 =>
        match calculate_total_cost cap.cost newItin with
        | .error e => .error e
        | .ok costs =>
          .ok (.success { current2 with itinerary_costs := some costs })
  | none => .ok (.error "Failed to update itinerary" 400)

/-- The `update_itinerary` handler (src/app.py:224-333): the try body's
result, with any exception caught and turned into a 500 error payload. -/
def update_itinerary (cap : UpdCapability) (data : UpdateBody) : Resp :=
  match update_body cap data with
  | .ok r => r
  | .error e => .error (strErr e) 500

/-!  ## Concrete capabilities and request bodies used in witnesses -/

/-- A generate capability whose completion calls never return a structured
payload and whose image provider always succeeds. -/
def genCapAllEmpty : GenCapability :=
  { itin := fun _ => none
    cost := fun _ => none
    image := fun _ => Except.ok "https://img.example/ok.png" }

/-- A generate capability returning no itinerary payload but a non-empty
cost payload, with a succeeding image provider. -/
def genCapCostOnly : GenCapability :=
  { itin := fun _ => none
    cost := fun _ => some (.ok [("total_trip_cost", "1200 USD")])
    image := fun _ => Except.ok "https://img.example/ok.png" }

/-- A generate capability whose image provider raises a provider error. -/
def genCapImgFail : GenCapability :=
  { itin := fun _ => none
    cost := fun _ => none
    image := fun _ => Except.error PyErr.providerError }

/-- The empty request body: every key absent from the posted JSON. -/
def emptyBody : RequestBody := ⟨none, none, none, none, none, none, none, none, none, none⟩

/-- The worked example of the spec: Boston to Tokyo, 3 days, 3000 USD. -/
def bostonBody : RequestBody :=
  { emptyBody with
    origin := some "Boston"
    destinations := some ["Tokyo"]
    days := some (.vInt 3)
    budget := some "3000"
    currency := some "USD" }

/-- A request body whose `days` field is a non-numeric string. -/
def badDaysBody : RequestBody := { emptyBody with days := some (.vStr "abc") }

/-- A sample day entry. -/
def sampleDay : DayPlan :=
  ⟨"Day 1", ⟨"Walk the park", "Museum visit", "Dinner downtown", "Ramen", "100 USD"⟩⟩

/-- A sample document as produced by a previous generate call. -/
def sampleDoc : ItineraryDoc :=
  { title := some "3-Day Trip from Boston to Tokyo"
    details := some ⟨"3000", "USD", 2, "moderate", "hotel", "general", ""⟩
    itinerary := some [sampleDay]
    itinerary_costs := some [("total_trip_cost", "900 USD")]
    image := none }

/-- A sample update request body. -/
def sampleUpdateBody : UpdateBody := ⟨some sampleDoc, some "add a museum"⟩

/-- An update capability whose completion calls never return a payload. -/
def updCapNone : UpdCapability :=
  ⟨fun _ _ => none, fun _ _ => none, fun _ => none⟩

/-- An update capability whose update call returns a payload with a
malformed arguments string. -/
def updCapBadJson : UpdCapability :=
  ⟨fun _ _ => some FnArgs.badJson, fun _ _ => none, fun _ => none⟩

/-- An update capability that rewrites the itinerary to one sample day,
declines the title call, and declines the cost call. -/
def updCapUpdOnly : UpdCapability :=
  ⟨fun _ _ => some (.ok [sampleDay]), fun _ _ => none, fun _ => none⟩

/-- An update capability whose update call succeeds but whose title call
returns a malformed payload. -/
def updCapTitleBad : UpdCapability :=
  ⟨fun _ _ => some (.ok [sampleDay]), fun _ _ => some FnArgs.badJson, fun _ => none⟩

/-!  ## Helper lemmas -/

/-- A completion response that raises nothing on the consuming side:
either absent, or a payload that parses and holds the required key. -/
def benignResp {α : Type} (r : LLMResp α) : Prop :=
  r = none ∨ ∃ a, r = some (FnArgs.ok a)

theorem calc_ok_of_benign {costCall : List DayPlan → LLMResp CostMap}
    {it : List DayPlan} (h : benignResp (costCall it)) :
    ∃ c, calculate_total_cost costCall it = .ok c := by
  rcases h with h | ⟨a, h⟩
  · exact ⟨[], by simp [calculate_total_cost, h]⟩
  · exact ⟨a, by simp [calculate_total_cost, h, parseArgs]⟩

theorem populate_ok_of_benign {itinCall : TripDetails → LLMResp (List DayPlan)}
    {td : TripDetails} (h : benignResp (itinCall td)) :
    ∃ acts, populate_daily_activities itinCall td = .ok acts := by
  rcases h with h | ⟨a, h⟩
  · exact ⟨[], by simp [populate_daily_activities, h]⟩
  · exact ⟨a, by simp [populate_daily_activities, h, parseArgs]⟩

theorem fetch_image_ok {imgCall : String → Except PyErr String} {d u : String}
    (doc : ItineraryDoc) (hd : d ≠ "") (hu : imgCall d = .ok u) :
    fetch_image imgCall (some d) doc = .ok { doc with image := some u } := by
  simp only [fetch_image]
  rw [if_neg hd, hu]

theorem fetch_image_err {imgCall : String → Except PyErr String} {d : String}
    {e : PyErr} (doc : ItineraryDoc) (hd : d ≠ "") (hu : imgCall d = .error e) :
    fetch_image imgCall (some d) doc = .error e := by
  simp only [fetch_image]
  rw [if_neg hd, hu]

/-- Anatomy of a successful generate flow: once the trip details build, the
daily-activities call and the cost call succeed, the handler returns the
assembled document (fetching an image exactly when a truthy first
destination exists and the provider succeeds). -/
theorem generate_body_spec (cap : GenCapability) (data : RequestBody)
    (td : TripDetails) (htd : build_trip_details data = .ok td)
    (acts : List DayPlan) (hacts : populate_daily_activities cap.itin td = .ok acts)
    (costs : CostMap) (hcosts : calculate_total_cost cap.cost acts = .ok costs)
    (himg : ∀ d, ∃ u, cap.image d = .ok u) :
    ∃ doc, generate_itinerary cap data = .success doc ∧
      doc.itinerary = some acts ∧ doc.itinerary_costs = some costs ∧
      ((first_destination data = none ∨ first_destination data = some "") → doc.image = none) := by
  unfold generate_itinerary generate_body
  simp only [htd, hacts, hcosts]
  cases hfd : first_destination data with
  | none =>
    exact ⟨_, rfl, rfl, rfl, fun _ => rfl⟩
  | some d =>
    by_cases hd : d = ""
    · subst hd
      exact ⟨_, rfl, rfl, rfl, fun _ => rfl⟩
    · rcases himg d with ⟨u, hu⟩
      rw [fetch_image_ok _ hd hu]
      refine ⟨_, rfl, rfl, rfl, ?_⟩
      rintro (h | h)
      · exact Option.noConfusion h
      · exact absurd (Option.some.inj h) hd

/-!  ## Claim theorems -/

/-- C1 (counterexample): the generate flow performs the cost call even when
the itinerary call yielded no payload, so with an itinerary call that
returns nothing but a cost call that returns a non-empty mapping, the
response is a success whose `itinerary` is empty while `itinerary_costs`
is not the empty mapping — refuting the claim that `itinerary_costs` is
always empty in that situation. -/
theorem generate_silent_degradation_cex :
    (∀ td, genCapCostOnly.itin td = none) ∧
    ∃ doc, generate_itinerary genCapCostOnly emptyBody = Resp.success doc ∧
      doc.itinerary = some [] ∧ doc.itinerary_costs ≠ some ([] : CostMap) := by
  exact ⟨fun _ => rfl, ⟨_, rfl, rfl, by decide⟩⟩

/-- C1 (amended): if neither the itinerary call nor the cost call returns a
structured payload and the image provider does not raise (and the numeric
request fields coerce), the generate response is a success whose
`itinerary` is the empty sequence and whose `itinerary_costs` is the empty
mapping. -/
theorem generate_silent_degradation (cap : GenCapability) (data : RequestBody)
    (hitin : ∀ td, cap.itin td = none)
    (hcost : ∀ it, cap.cost it = none)
    (himg : ∀ d, ∃ u, cap.image d = Except.ok u)
    (hdays : ∃ n, pyInt (data.days.getD (.vInt 5)) = Except.ok n)
    (hgs : ∃ n, pyInt (data.groupSize.getD (.vInt 2)) = Except.ok n) :
    ∃ doc, generate_itinerary cap data = Resp.success doc ∧
      doc.itinerary = some [] ∧ doc.itinerary_costs = some ([] : CostMap) := by
  rcases hdays with ⟨nd, hnd⟩
  rcases hgs with ⟨ng, hng⟩
  have htd : build_trip_details data = Except.ok
      { origin := data.origin.getD ""
        destinations := joined_destinations data
        budget := data.budget.getD ""
        days := nd
        currency := data.currency.getD "USD"
        groupSize := ng
        comfortLevel := data.comfortLevel.getD "moderate"
        theme := data.theme.getD "general"
        additionalInfo := data.additionalInfo.getD ""
        stayPref := data.stayPref.getD "Doesn\x27t matter, base on my budget and comfort level" } := by
    simp only [build_trip_details, hnd, hng]
  obtain ⟨doc, hdoc, hit, hco, _⟩ :=
    generate_body_spec cap data _ htd []
      (by simp only [populate_daily_activities, hitin]) []
      (by simp only [calculate_total_cost, hcost]) himg
  exact ⟨doc, hdoc, hit, hco⟩

/-- C1 (witness): the amended theorem applied to the all-declining
capability and the empty request body. -/
theorem generate_silent_degradation_wit :
    ∃ doc, generate_itinerary genCapAllEmpty emptyBody = Resp.success doc ∧
      doc.itinerary = some [] ∧ doc.itinerary_costs = some ([] : CostMap) :=
  generate_silent_degradation genCapAllEmpty emptyBody (fun _ => rfl) (fun _ => rfl)
    (fun _ => ⟨"https://img.example/ok.png", rfl⟩) ⟨5, rfl⟩ ⟨2, rfl⟩

/-- C2: if the update call returns no structured function-call payload, the
update handler responds with the 400 error object "Failed to update
itinerary"; no document (partially mutated or otherwise) is returned, and
the supplied current itinerary is never modified. -/
theorem update_fails_loudly (cap : UpdCapability) (data : UpdateBody)
    (h : cap.upd (data.current_itinerary.getD emptyDoc) (data.user_suggestion.getD "") = none) :
    update_itinerary cap data = Resp.error "Failed to update itinerary" 400 := by
  unfold update_itinerary update_body
  simp only [h]

/-- C2 (witness): the theorem applied to a capability that declines the
update call, on a sample document. -/
theorem update_fails_loudly_wit :
    update_itinerary updCapNone sampleUpdateBody = Resp.error "Failed to update itinerary" 400 :=
  update_fails_loudly updCapNone sampleUpdateBody rfl

/-- C7: the initial document title is "{days}-Day Trip from {origin} to
{destinations}" exactly when the theme is "general" and "{days}-Day
{theme} Trip from {origin} to {destinations}" otherwise; in particular the
generate flow on origin "Boston", destinations ["Tokyo"], days 3 with the
default theme produces the title "3-Day Trip from Boston to Tokyo". -/
theorem title_construction :
    (∀ (origin destinations budget stayPref currency comfortLevel theme additionalInfo : String)
       (days groupSize : Int),
      (theme = "general" →
        (create_initial_itinerary_structure origin days destinations budget stayPref
          currency groupSize comfortLevel theme additionalInfo).title =
          some s!"{days}-Day Trip from {origin} to {destinations}") ∧
      (theme ≠ "general" →
        (create_initial_itinerary_structure origin days destinations budget stayPref
          currency groupSize comfortLevel theme additionalInfo).title =
          some s!"{days}-Day {theme} Trip from {origin} to {destinations}")) ∧
    ∃ doc, generate_itinerary genCapAllEmpty bostonBody = Resp.success doc ∧
      doc.title = some "3-Day Trip from Boston to Tokyo" := by
  refine ⟨?_, ⟨_, rfl, rfl⟩⟩
  intro origin destinations budget stayPref currency comfortLevel theme additionalInfo days groupSize
  constructor
  · intro h
    simp [create_initial_itinerary_structure, h]
  · intro h
    simp [create_initial_itinerary_structure, h]

/-- C7 (witness): both title shapes at concrete values. -/
theorem title_construction_wit :
    (create_initial_itinerary_structure "Boston" 3 "Tokyo" "3000" "hotel" "USD" 2 "moderate"
      "general" "").title = some "3-Day Trip from Boston to Tokyo" ∧
    (create_initial_itinerary_structure "Boston" 3 "Tokyo" "3000" "hotel" "USD" 2 "moderate"
      "food" "").title = some "3-Day food Trip from Boston to Tokyo" :=
  ⟨(title_construction.1 "Boston" "Tokyo" "3000" "hotel" "USD" "moderate" "general" "" 3 2).1 rfl,
   (title_construction.1 "Boston" "Tokyo" "3000" "hotel" "USD" "moderate" "food" "" 3 2).2 (by decide)⟩

/-!  ## More helper lemmas (update-flow anatomy, trip-details assembly) -/

theorem build_trip_details_ok (data : RequestBody)
    (hdays : ∃ n, pyInt (data.days.getD (.vInt 5)) = Except.ok n)
    (hgs : ∃ n, pyInt (data.groupSize.getD (.vInt 2)) = Except.ok n) :
    ∃ td, build_trip_details data = Except.ok td := by
  rcases hdays with ⟨nd, hnd⟩
  rcases hgs with ⟨ng, hng⟩
  have h : build_trip_details data = Except.ok
      { origin := data.origin.getD ""
        destinations := joined_destinations data
        budget := data.budget.getD ""
        days := nd
        currency := data.currency.getD "USD"
        groupSize := ng
        comfortLevel := data.comfortLevel.getD "moderate"
        theme := data.theme.getD "general"
        additionalInfo := data.additionalInfo.getD ""
        stayPref := data.stayPref.getD "Doesn\x27t matter, base on my budget and comfort level" } := by
    simp only [build_trip_details, hnd, hng]
  exact ⟨_, h⟩

theorem update_none_eq (cap : UpdCapability) (data : UpdateBody)
    (h : cap.upd (data.current_itinerary.getD emptyDoc) (data.user_suggestion.getD "") = none) :
    update_itinerary cap data = Resp.error "Failed to update itinerary" 400 := by
  unfold update_itinerary update_body
  simp only [h]

theorem update_badJson_eq (cap : UpdCapability) (data : UpdateBody)
    (h : cap.upd (data.current_itinerary.getD emptyDoc) (data.user_suggestion.getD "") =
      some FnArgs.badJson) :
    update_itinerary cap data = Resp.error (strErr PyErr.jsonDecodeError) 500 := by
  unfold update_itinerary update_body
  simp only [h, parseArgs]

theorem update_missingKey_eq (cap : UpdCapability) (data : UpdateBody)
    (h : cap.upd (data.current_itinerary.getD emptyDoc) (data.user_suggestion.getD "") =
      some FnArgs.missingKey) :
    update_itinerary cap data = Resp.error (strErr PyErr.keyError) 500 := by
  unfold update_itinerary update_body
  simp only [h, parseArgs]

theorem update_ok_title_ok_cost_ok (cap : UpdCapability) (data : UpdateBody)
    (it : List DayPlan) (t : String) (c : CostMap)
    (hupd : cap.upd (data.current_itinerary.getD emptyDoc) (data.user_suggestion.getD "") =
      some (FnArgs.ok it))
    (httl : cap.title (data.user_suggestion.getD "")
      ((data.current_itinerary.getD emptyDoc).title.getD "") = some (FnArgs.ok t))
    (hc : calculate_total_cost cap.cost it = Except.ok c) :
    update_itinerary cap data = Resp.success
      { data.current_itinerary.getD emptyDoc with
        itinerary := some it, title := some t, itinerary_costs := some c } := by
  unfold update_itinerary update_body
  simp only [hupd, httl, hc, parseArgs]

theorem update_ok_title_none_cost_ok (cap : UpdCapability) (data : UpdateBody)
    (it : List DayPlan) (c : CostMap)
    (hupd : cap.upd (data.current_itinerary.getD emptyDoc) (data.user_suggestion.getD "") =
      some (FnArgs.ok it))
    (httl : cap.title (data.user_suggestion.getD "")
      ((data.current_itinerary.getD emptyDoc).title.getD "") = none)
    (hc : calculate_total_cost cap.cost it = Except.ok c) :
    update_itinerary cap data = Resp.success
      { data.current_itinerary.getD emptyDoc with
        itinerary := some it, itinerary_costs := some c } := by
  unfold update_itinerary update_body
  simp only [hupd, httl, hc, parseArgs]

theorem update_ok_title_badJson (cap : UpdCapability) (data : UpdateBody) (it : List DayPlan)
    (hupd : cap.upd (data.current_itinerary.getD emptyDoc) (data.user_suggestion.getD "") =
      some (FnArgs.ok it))
    (httl : cap.title (data.user_suggestion.getD "")
      ((data.current_itinerary.getD emptyDoc).title.getD "") = some FnArgs.badJson) :
    update_itinerary cap data = Resp.error (strErr PyErr.jsonDecodeError) 500 := by
  unfold update_itinerary update_body
  simp only [hupd, httl, parseArgs]

theorem update_ok_title_missingKey (cap : UpdCapability) (data : UpdateBody) (it : List DayPlan)
    (hupd : cap.upd (data.current_itinerary.getD emptyDoc) (data.user_suggestion.getD "") =
      some (FnArgs.ok it))
    (httl : cap.title (data.user_suggestion.getD "")
      ((data.current_itinerary.getD emptyDoc).title.getD "") = some FnArgs.missingKey) :
    update_itinerary cap data = Resp.error (strErr PyErr.keyError) 500 := by
  unfold update_itinerary update_body
  simp only [hupd, httl, parseArgs]

theorem update_ok_cost_err (cap : UpdCapability) (data : UpdateBody) (it : List DayPlan)
    (e : PyErr)
    (hupd : cap.upd (data.current_itinerary.getD emptyDoc) (data.user_suggestion.getD "") =
      some (FnArgs.ok it))
    (htitle : benignResp (cap.title (data.user_suggestion.getD "")
      ((data.current_itinerary.getD emptyDoc).title.getD "")))
    (hc : calculate_total_cost cap.cost it = Except.error e) :
    update_itinerary cap data = Resp.error (strErr e) 500 := by
  unfold update_itinerary update_body
  rcases htitle with h | ⟨t, h⟩ <;> simp only [hupd, h, hc, parseArgs]

/-- C3 (counterexample): the image-generation call sits inside the
handler's `try` with no local handler, so a provider error aborts the
whole request: with a destination supplied and an image provider that
raises, the generate response is a 500 error object, not a success —
refuting "a provider error never causes the overall response to be an
error". -/
theorem illustration_isolation_cex :
    generate_itinerary genCapImgFail bostonBody = Resp.error (strErr PyErr.providerError) 500 := rfl

/-- C3 (amended): an absent or empty destinations list never causes an
error — the illustration step is skipped and the response is the success
document with the `image` key absent; but a provider error during image
generation aborts the request with a 500 error response. -/
theorem illustration_isolation (cap : GenCapability) (data : RequestBody)
    (hitin : ∀ td, benignResp (cap.itin td))
    (hcost : ∀ it, benignResp (cap.cost it))
    (hdays : ∃ n, pyInt (data.days.getD (.vInt 5)) = Except.ok n)
    (hgs : ∃ n, pyInt (data.groupSize.getD (.vInt 2)) = Except.ok n) :
    ((first_destination data = none ∨ first_destination data = some "") →
      ∃ doc, generate_itinerary cap data = Resp.success doc ∧ doc.image = none) ∧
    (∀ d e, first_destination data = some d → d ≠ "" → cap.image d = Except.error e →
      generate_itinerary cap data = Resp.error (strErr e) 500) := by
  obtain ⟨td, htd⟩ := build_trip_details_ok data hdays hgs
  obtain ⟨acts, hacts⟩ := populate_ok_of_benign (hitin td)
  obtain ⟨costs, hcosts⟩ := calc_ok_of_benign (hcost acts)
  constructor
  · intro hfd
    unfold generate_itinerary generate_body
    simp only [htd, hacts, hcosts]
    rcases hfd with h | h <;> rw [h] <;> exact ⟨_, rfl, rfl⟩
  · intro d e hfd hd himgE
    unfold generate_itinerary generate_body
    simp only [htd, hacts, hcosts, hfd]
    rw [fetch_image_err _ hd himgE]

/-- C3 (witness): the amended theorem at a capability whose image provider
raises, on a request with no destinations: still a success, image absent. -/
theorem illustration_isolation_wit :
    ∃ doc, generate_itinerary genCapImgFail emptyBody = Resp.success doc ∧ doc.image = none :=
  (illustration_isolation genCapImgFail emptyBody (fun _ => Or.inl rfl) (fun _ => Or.inl rfl)
    ⟨5, rfl⟩ ⟨2, rfl⟩).1 (Or.inl rfl)

/-- C4: in both flows, every structured call whose function-call payload
fails to parse as JSON is a hard error surfaced as an error response (the
handler returns the JSON-decode error with status 500), never converted
into an empty result: (1) the generate itinerary call, (2) the generate
cost call, (3) the update call, (4) the title call, (5) the update cost
call. -/
theorem malformed_payload_hard_error :
    (∀ (cap : GenCapability) (data : RequestBody),
      (∃ n, pyInt (data.days.getD (.vInt 5)) = Except.ok n) →
      (∃ n, pyInt (data.groupSize.getD (.vInt 2)) = Except.ok n) →
      (∀ td, cap.itin td = some FnArgs.badJson) →
      generate_itinerary cap data = Resp.error (strErr PyErr.jsonDecodeError) 500) ∧
    (∀ (cap : GenCapability) (data : RequestBody),
      (∃ n, pyInt (data.days.getD (.vInt 5)) = Except.ok n) →
      (∃ n, pyInt (data.groupSize.getD (.vInt 2)) = Except.ok n) →
      (∀ td, benignResp (cap.itin td)) →
      (∀ it, cap.cost it = some FnArgs.badJson) →
      generate_itinerary cap data = Resp.error (strErr PyErr.jsonDecodeError) 500) ∧
    (∀ (cap : UpdCapability) (data : UpdateBody),
      (∀ d s, cap.upd d s = some FnArgs.badJson) →
      update_itinerary cap data = Resp.error (strErr PyErr.jsonDecodeError) 500) ∧
    (∀ (cap : UpdCapability) (data : UpdateBody) (it : List DayPlan),
      (∀ d s, cap.upd d s = some (FnArgs.ok it)) →
      (∀ s t, cap.title s t = some FnArgs.badJson) →
      update_itinerary cap data = Resp.error (strErr PyErr.jsonDecodeError) 500) ∧
    (∀ (cap : UpdCapability) (data : UpdateBody) (it : List DayPlan),
      (∀ d s, cap.upd d s = some (FnArgs.ok it)) →
      (∀ s t, benignResp (cap.title s t)) →
      (∀ l, cap.cost l = some FnArgs.badJson) →
      update_itinerary cap data = Resp.error (strErr PyErr.jsonDecodeError) 500) := by
  refine ⟨?_, ?_, ?_, ?_, ?_⟩
  · intro cap data hdays hgs hbad
    obtain ⟨td, htd⟩ := build_trip_details_ok data hdays hgs
    unfold generate_itinerary generate_body
    simp only [htd, populate_daily_activities, hbad, parseArgs]
  · intro cap data hdays hgs hitin hbad
    obtain ⟨td, htd⟩ := build_trip_details_ok data hdays hgs
    obtain ⟨acts, hacts⟩ := populate_ok_of_benign (hitin td)
    unfold generate_itinerary generate_body
    simp only [htd, hacts, calculate_total_cost, hbad, parseArgs]
  · intro cap data hbad
    exact update_badJson_eq cap data (hbad _ _)
  · intro cap data it hupd hbad
    exact update_ok_title_badJson cap data it (hupd _ _) (hbad _ _)
  · intro cap data it hupd htitle hbad
    have hc : calculate_total_cost cap.cost it = Except.error PyErr.jsonDecodeError := by
      simp only [calculate_total_cost, hbad, parseArgs]
    exact update_ok_cost_err cap data it PyErr.jsonDecodeError (hupd _ _) (htitle _ _) hc

/-- C4 (witness): the update-call conjunct at a concrete capability whose
update payload is malformed JSON. -/
theorem malformed_payload_hard_error_wit :
    update_itinerary updCapBadJson sampleUpdateBody = Resp.error (strErr PyErr.jsonDecodeError) 500 :=
  malformed_payload_hard_error.2.2.1 updCapBadJson sampleUpdateBody (fun _ _ => rfl)

/-- C5 (counterexample): a request whose `days` field is the non-numeric
string "abc" is rejected: `int()` raises `ValueError` and the handler
returns a 500 error object — refuting "the request is never rejected for
malformed input". -/
theorem permissive_input_cex :
    generate_itinerary genCapAllEmpty badDaysBody = Resp.error (strErr PyErr.valueError) 500 := rfl

/-- C5 (amended): missing request fields are substituted with the
documented defaults (days 5, currency "USD", groupSize 2, comfortLevel
"moderate", theme "general") and numeric fields are coerced to integers;
any request whose numeric fields coerce succeeds (given non-raising
providers), but a numeric field that cannot be coerced makes
`build_trip_details` fail and the request is rejected with a 500 error. -/
theorem permissive_input (cap : GenCapability)
    (hitin : ∀ td, benignResp (cap.itin td))
    (hcost : ∀ it, benignResp (cap.cost it))
    (himg : ∀ d, ∃ u, cap.image d = Except.ok u) :
    (build_trip_details emptyBody = Except.ok
      { origin := ""
        destinations := ""
        budget := ""
        days := 5
        currency := "USD"
        groupSize := 2
        comfortLevel := "moderate"
        theme := "general"
        additionalInfo := ""
        stayPref := "Doesn\x27t matter, base on my budget and comfort level" }) ∧
    (∀ data : RequestBody,
      (∃ n, pyInt (data.days.getD (.vInt 5)) = Except.ok n) →
      (∃ n, pyInt (data.groupSize.getD (.vInt 2)) = Except.ok n) →
      ∃ doc, generate_itinerary cap data = Resp.success doc) ∧
    (∀ (data : RequestBody) (e : PyErr), build_trip_details data = Except.error e →
      generate_itinerary cap data = Resp.error (strErr e) 500) := by
  refine ⟨rfl, ?_, ?_⟩
  · intro data hdays hgs
    obtain ⟨td, htd⟩ := build_trip_details_ok data hdays hgs
    obtain ⟨acts, hacts⟩ := populate_ok_of_benign (hitin td)
    obtain ⟨costs, hcosts⟩ := calc_ok_of_benign (hcost acts)
    obtain ⟨doc, hdoc, _⟩ := generate_body_spec cap data td htd acts hacts costs hcosts himg
    exact ⟨doc, hdoc⟩
  · intro data e htd
    unfold generate_itinerary generate_body
    simp only [htd]

/-- C5 (witness): the defaults conjunct and a successful all-defaults
request through the amended theorem. -/
theorem permissive_input_wit :
    ∃ doc, generate_itinerary genCapAllEmpty emptyBody = Resp.success doc :=
  (permissive_input genCapAllEmpty (fun _ => Or.inl rfl) (fun _ => Or.inl rfl)
    (fun _ => ⟨"https://img.example/ok.png", rfl⟩)).2.1 emptyBody ⟨5, rfl⟩ ⟨2, rfl⟩

/-- C6: whenever the update handler returns a success document, that
document's `itinerary_costs` is exactly the result of the cost call
applied to the new itinerary the update call just produced — which is the
document's own (final) `itinerary` — so across any sequence of updates the
final costs derive from the latest itinerary, never a pre-update one. -/
theorem costs_never_stale (cap : UpdCapability) (data : UpdateBody) (doc : ItineraryDoc)
    (h : update_itinerary cap data = Resp.success doc) :
    ∃ it, doc.itinerary = some it ∧
      cap.upd (data.current_itinerary.getD emptyDoc) (data.user_suggestion.getD "") =
        some (FnArgs.ok it) ∧
      ∃ c, calculate_total_cost cap.cost it = Except.ok c ∧ doc.itinerary_costs = some c := by
  rcases hupd : cap.upd (data.current_itinerary.getD emptyDoc) (data.user_suggestion.getD "")
    with _ | (it | _ | _)
  · rw [update_none_eq cap data hupd] at h
    exact Resp.noConfusion h
  · rcases httl : cap.title (data.user_suggestion.getD "")
        ((data.current_itinerary.getD emptyDoc).title.getD "") with _ | (t | _ | _)
    · rcases hc : calculate_total_cost cap.cost it with e | c
      · rw [update_ok_cost_err cap data it e hupd (Or.inl httl) hc] at h
        exact Resp.noConfusion h
      · rw [update_ok_title_none_cost_ok cap data it c hupd httl hc] at h
        obtain rfl := (Resp.success.inj h).symm
        exact ⟨it, rfl, rfl, c, hc, rfl⟩
    · rcases hc : calculate_total_cost cap.cost it with e | c
      · rw [update_ok_cost_err cap data it e hupd (Or.inr ⟨t, httl⟩) hc] at h
        exact Resp.noConfusion h
      · rw [update_ok_title_ok_cost_ok cap data it t c hupd httl hc] at h
        obtain rfl := (Resp.success.inj h).symm
        exact ⟨it, rfl, rfl, c, hc, rfl⟩
    · rw [update_ok_title_badJson cap data it hupd httl] at h
      exact Resp.noConfusion h
    · rw [update_ok_title_missingKey cap data it hupd httl] at h
      exact Resp.noConfusion h
  · rw [update_badJson_eq cap data hupd] at h
    exact Resp.noConfusion h
  · rw [update_missingKey_eq cap data hupd] at h
    exact Resp.noConfusion h

/-- C6 (witness): the theorem at a concrete successful update. -/
theorem costs_never_stale_wit :
    ∃ it, ({ sampleDoc with
        itinerary := some [sampleDay]
        itinerary_costs := some ([] : CostMap) } : ItineraryDoc).itinerary = some it ∧
      updCapUpdOnly.upd (sampleUpdateBody.current_itinerary.getD emptyDoc)
        (sampleUpdateBody.user_suggestion.getD "") = some (FnArgs.ok it) ∧
      ∃ c, calculate_total_cost updCapUpdOnly.cost it = Except.ok c ∧
        ({ sampleDoc with
          itinerary := some [sampleDay]
          itinerary_costs := some ([] : CostMap) } : ItineraryDoc).itinerary_costs = some c :=
  costs_never_stale updCapUpdOnly sampleUpdateBody _ rfl

/-- C8: in the update flow (with the update call succeeded and a benign
cost call), if the title call yields a structured title the document's
title is overwritten with it; if it yields no payload the title field is
exactly the input document's title; and if it returns the same title t0 as
the input document the title field remains byte-equal to some t0. -/
theorem title_update_best_effort (cap : UpdCapability) (data : UpdateBody) (it : List DayPlan)
    (hupd : cap.upd (data.current_itinerary.getD emptyDoc) (data.user_suggestion.getD "") =
      some (FnArgs.ok it))
    (hcost : benignResp (cap.cost it)) :
    (∀ t, cap.title (data.user_suggestion.getD "")
        ((data.current_itinerary.getD emptyDoc).title.getD "") = some (FnArgs.ok t) →
      ∃ doc, update_itinerary cap data = Resp.success doc ∧ doc.title = some t) ∧
    (cap.title (data.user_suggestion.getD "")
        ((data.current_itinerary.getD emptyDoc).title.getD "") = none →
      ∃ doc, update_itinerary cap data = Resp.success doc ∧
        doc.title = (data.current_itinerary.getD emptyDoc).title) ∧
    (∀ t0, (data.current_itinerary.getD emptyDoc).title = some t0 →
      cap.title (data.user_suggestion.getD "") t0 = some (FnArgs.ok t0) →
      ∃ doc, update_itinerary cap data = Resp.success doc ∧ doc.title = some t0) := by
  obtain ⟨c, hc⟩ := calc_ok_of_benign hcost
  refine ⟨?_, ?_, ?_⟩
  · intro t httl
    exact ⟨_, update_ok_title_ok_cost_ok cap data it t c hupd httl hc, rfl⟩
  · intro httl
    exact ⟨_, update_ok_title_none_cost_ok cap data it c hupd httl hc, rfl⟩
  · intro t0 ht0 httl
    refine ⟨_, update_ok_title_ok_cost_ok cap data it t0 c hupd ?_ hc, rfl⟩
    rw [ht0]
    simpa using httl

/-- C8 (witness): a declining title call retains the sample document's
title unchanged. -/
theorem title_update_best_effort_wit :
    ∃ doc, update_itinerary updCapUpdOnly sampleUpdateBody = Resp.success doc ∧
      doc.title = some "3-Day Trip from Boston to Tokyo" := by
  obtain ⟨doc, h1, h2⟩ :=
    (title_update_best_effort updCapUpdOnly sampleUpdateBody [sampleDay] rfl (Or.inl rfl)).2.1 rfl
  exact ⟨doc, h1, h2.trans rfl⟩

/-- C9 (implicit): once the update call has succeeded, a JSON parse
failure in the later title call or cost call raises, is caught at the
handler boundary, and becomes a 500 error response — the successfully
updated itinerary is discarded and the caller receives an error even
though the primary update succeeded. -/
theorem late_parse_failure_discards_update (cap : UpdCapability) (data : UpdateBody)
    (it : List DayPlan)
    (hupd : cap.upd (data.current_itinerary.getD emptyDoc) (data.user_suggestion.getD "") =
      some (FnArgs.ok it)) :
    (cap.title (data.user_suggestion.getD "")
        ((data.current_itinerary.getD emptyDoc).title.getD "") = some FnArgs.badJson →
      update_itinerary cap data = Resp.error (strErr PyErr.jsonDecodeError) 500) ∧
    (benignResp (cap.title (data.user_suggestion.getD "")
        ((data.current_itinerary.getD emptyDoc).title.getD "")) →
      cap.cost it = some FnArgs.badJson →
      update_itinerary cap data = Resp.error (strErr PyErr.jsonDecodeError) 500) := by
  constructor
  · intro httl
    exact update_ok_title_badJson cap data it hupd httl
  · intro htitle hbad
    have hc : calculate_total_cost cap.cost it = Except.error PyErr.jsonDecodeError := by
      simp only [calculate_total_cost, hbad, parseArgs]
    exact update_ok_cost_err cap data it PyErr.jsonDecodeError hupd htitle hc

/-- C9 (witness): a malformed title payload after a successful update
yields the 500 error. -/
theorem late_parse_failure_discards_update_wit :
    update_itinerary updCapTitleBad sampleUpdateBody =
      Resp.error (strErr PyErr.jsonDecodeError) 500 :=
  (late_parse_failure_discards_update updCapTitleBad sampleUpdateBody [sampleDay] rfl).1 rfl

/-- C10 (implicit): the generate flow performs the cost call even when the
itinerary call yielded no payload: if the cost call returns a mapping m on
the empty itinerary, the success document has an empty `itinerary`
together with `itinerary_costs = m` — in particular m may be non-empty. -/
theorem cost_call_always_performed (cap : GenCapability) (data : RequestBody) (m : CostMap)
    (hitin : ∀ td, cap.itin td = none)
    (hcost : cap.cost [] = some (FnArgs.ok m))
    (himg : ∀ d, ∃ u, cap.image d = Except.ok u)
    (hdays : ∃ n, pyInt (data.days.getD (.vInt 5)) = Except.ok n)
    (hgs : ∃ n, pyInt (data.groupSize.getD (.vInt 2)) = Except.ok n) :
    ∃ doc, generate_itinerary cap data = Resp.success doc ∧
      doc.itinerary = some [] ∧ doc.itinerary_costs = some m := by
  obtain ⟨td, htd⟩ := build_trip_details_ok data hdays hgs
  obtain ⟨doc, hdoc, hit, hco, _⟩ := generate_body_spec cap data td htd []
    (by simp only [populate_daily_activities, hitin]) m
    (by simp only [calculate_total_cost, hcost, parseArgs]) himg
  exact ⟨doc, hdoc, hit, hco⟩

/-- C10 (witness): a non-empty cost mapping alongside an empty itinerary. -/
theorem cost_call_always_performed_wit :
    ∃ doc, generate_itinerary genCapCostOnly emptyBody = Resp.success doc ∧
      doc.itinerary = some [] ∧
      doc.itinerary_costs = some [("total_trip_cost", "1200 USD")] :=
  cost_call_always_performed genCapCostOnly emptyBody _ (fun _ => rfl) rfl
    (fun _ => ⟨"https://img.example/ok.png", rfl⟩) ⟨5, rfl⟩ ⟨2, rfl⟩
